import Mathlib

/-!
Verification of the KKBOX churn-prediction labeling and evaluation pipeline.

This file gives a shallow embedding of the relevant parts of the repository:

* `src/labels.py` — `create_churn_labels` (DuckDB SQL implementing the 30-day
  churn rule), `validate_labels`, `mismatch_audit`;
* `src/backtest.py` — `labels_for_expire_month` and the window loop of `main`;
* `src/historical_features.py` — `compute_all_churn_labels`;
* `src/psi.py` — `psi_numeric`;
* `src/temporal_cv.py` — `TemporalSplit.split`.

Dates in the CSVs are `yyyymmdd` integers; DuckDB parses them with
`STRPTIME(..., '%Y%m%d')` into calendar dates.  We embed a date by its
Gregorian day number (standard civil-calendar formula), so that DuckDB's
`DATE_DIFF('day', a, b)` becomes a subtraction of day numbers and date
comparisons become comparisons of day numbers.  The day number carries a
constant epoch shift relative to DuckDB's internal epoch; only differences and
comparisons of day numbers are ever used, so the shift is irrelevant.
-/

/-- Day number of a proleptic Gregorian date (standard civil-calendar
formula, shifted by a constant epoch offset).  All quantities are natural
numbers for the years that occur in this data set (2015–2017). -/
def dayNumOfYMD (y m d : Nat) : Nat :=
  let yAdj := if m ≤ 2 then y - 1 else y
  let era := yAdj / 400
  let yoe := yAdj - era * 400
  let mp := if 2 < m then m - 3 else m + 9
  let doy := (153 * mp + 2) / 5 + d - 1
  let doe := yoe * 365 + yoe / 4 - yoe / 100 + doy
  era * 146097 + doe

/-- Day number of a date encoded as a `yyyymmdd` integer, mirroring
`STRPTIME(CAST(n AS VARCHAR), '%Y%m%d')`. -/
def dayNum (n : Nat) : Nat :=
  dayNumOfYMD (n / 10000) (n / 100 % 100) (n % 100)

/-- One row of the transactions CSV, with the columns used by the three
labelers.  `msno` is the user id; both dates are `yyyymmdd` integers;
`is_cancel` is the 0/1 integer flag from the CSV. -/
structure Txn where
  msno : Nat
  transaction_date : Nat
  membership_expire_date : Nat
  is_cancel : Nat
deriving DecidableEq

/-- `transaction_date` of a row as a day number (`txn_dt` in the SQL). -/
def txDT (t : Txn) : Nat := dayNum t.transaction_date

/-- `membership_expire_date` of a row as a day number (`exp_dt` in the SQL). -/
def expDT (t : Txn) : Nat := dayNum t.membership_expire_date

/-- All transactions of user `u` (the SQL is grouped / joined on `msno`). -/
def userTx (txs : List Txn) (u : Nat) : List Txn :=
  txs.filter (fun t => decide (t.msno = u))

/-- SQL `MAX` over a (possibly empty) group: `none` on the empty group. -/
def listMaxOpt : List Nat → Option Nat
  | [] => none
  | x :: xs => some (xs.foldl max x)

/-- SQL `MIN` over a (possibly empty) group: `none` on the empty group. -/
def listMinOpt : List Nat → Option Nat
  | [] => none
  | x :: xs => some (xs.foldl min x)

/-! ### `src/labels.py` — `create_churn_labels`

The SQL pipeline, per user: `tx_sorted` keeps transactions with
`transaction_date <= cutoff - INTERVAL '1 day'`; `user_last_expire` takes
`MAX(membership_expire_date)` over `tx_sorted` rows with
`membership_expire_date < cutoff`; `next_extensions` takes
`MIN(t2.transaction_date)` over `tx_sorted` rows with
`t2.transaction_date > last_expire AND t2.is_cancel = 0 AND
t2.membership_expire_date > last_expire`; `churn_labels` applies the CASE
expression of the 30-day rule.  (The inner join on `t1` only duplicates
group rows — the maximum is attained by some row — so it does not change
the `MIN` and is dropped here.)  The cutoff is passed as a day number. -/

/-- `tx_sorted` restricted to user `u`: transactions strictly before the
cutoff date (`transaction_date <= cutoff - 1 day`). -/
def txBeforeCutoff (txs : List Txn) (u cutoffD : Nat) : List Txn :=
  (userTx txs u).filter (fun t => decide (txDT t ≤ cutoffD - 1))

/-- `user_last_expire`: the user's latest membership expiration strictly
before the cutoff, among pre-cutoff transactions. -/
def lastExpireLabels (txs : List Txn) (u cutoffD : Nat) : Option Nat :=
  listMaxOpt (((txBeforeCutoff txs u cutoffD).filter
    (fun t => decide (expDT t < cutoffD))).map expDT)

/-- `next_extensions`: earliest transaction date among pre-cutoff, non-cancel
transactions dated strictly after the last expiration that extend membership
strictly beyond it. -/
def nextTxnLabels (txs : List Txn) (u cutoffD le : Nat) : Option Nat :=
  listMinOpt (((txBeforeCutoff txs u cutoffD).filter (fun t =>
    decide (le < txDT t ∧ t.is_cancel = 0 ∧ le < expDT t))).map txDT)

/-- The `churn_labels` CASE expression, shared verbatim by `labels.py` and
`backtest.py`: no future renewal ⇒ 1; renewal within `windowDays` ⇒ 0;
later renewal ⇒ 1. -/
def churnCase (le : Nat) (next : Option Nat) (windowDays : Int) : Nat :=
  match next with
  | none => 1
  | some nx => if (nx : Int) - (le : Int) ≤ windowDays then 0 else 1

/-- Per-user value of `create_churn_labels` (the `churn_labels` CTE):
`none` when the user has no qualifying expiration before the cutoff, in
which case the user contributes no output row. -/
def create_churn_labels (txs : List Txn) (u cutoffD : Nat) (windowDays : Int) :
    Option Nat :=
  match lastExpireLabels txs u cutoffD with
  | none => none
  | some le => some (churnCase le (nextTxnLabels txs u cutoffD le) windowDays)

/-! ### `src/backtest.py` — `labels_for_expire_month`

`month_bounds` gives the first and last calendar day of the target month;
`last_exp` takes `MAX(exp_dt)` over the user's transactions whose expiration
lies in that month (`BETWEEN first AND last`); `next_tx` takes
`MIN(t2.txn_dt)` over non-cancel transactions dated strictly after the last
expiration that extend membership strictly beyond it (no cutoff filter);
the final CASE is identical to the one in `labels.py`. -/

/-- First calendar day of month `(y, m)` as a day number. -/
def monthFirstDay (y m : Nat) : Nat := dayNumOfYMD y m 1

/-- Last calendar day of month `(y, m)`: the day before the first of the
next month (`month_bounds` in `backtest.py`). -/
def monthLastDay (y m : Nat) : Nat :=
  (if m = 12 then dayNumOfYMD (y + 1) 1 1 else dayNumOfYMD y (m + 1) 1) - 1

/-- `last_exp`: the user's latest membership expiration falling inside the
target month. -/
def lastExpBacktest (txs : List Txn) (u y m : Nat) : Option Nat :=
  listMaxOpt (((userTx txs u).filter (fun t =>
    decide (monthFirstDay y m ≤ expDT t ∧ expDT t ≤ monthLastDay y m))).map expDT)

/-- `next_tx`: earliest non-cancel transaction after the last expiration
that extends membership beyond it (the whole file is visible, no cutoff). -/
def nextTxnBacktest (txs : List Txn) (u le : Nat) : Option Nat :=
  listMinOpt (((userTx txs u).filter (fun t =>
    decide (le < txDT t ∧ t.is_cancel = 0 ∧ le < expDT t))).map txDT)

/-- Per-user value of `labels_for_expire_month`: `none` when the user has no
membership expiration in the target month (no output row). -/
def labels_for_expire_month (txs : List Txn) (u y m : Nat) (windowDays : Int) :
    Option Nat :=
  match lastExpBacktest txs u y m with
  | none => none
  | some le => some (churnCase le (nextTxnBacktest txs u le) windowDays)

/-! ### `src/historical_features.py` — `compute_all_churn_labels`

The `tx` CTE is `SELECT DISTINCT` over the raw rows; per target month
(`yyyymm` integer) the qualifying row `lq` is the `ROW_NUMBER() = 1` row
ordered by `txn_date_int DESC, exp_date_int DESC` among non-cancel rows whose
expiration month equals the target and whose transaction month precedes it;
a renewal is any row `t2` of the user with `is_cancel = 0`,
`txn_date_int > lq.txn_date_int`,
`DATE_DIFF('day', lq.qual_exp_dt, t2.txn_dt) < 30` (strict), and
`t2.exp_dt > lq.qual_exp_dt`.  `is_churn` is 0 iff a renewal exists. -/

/-- The deduplicated (`SELECT DISTINCT`) transactions of user `u`. -/
def txDistinct (txs : List Txn) (u : Nat) : List Txn := (userTx txs u).dedup

/-- `ORDER BY txn_date_int DESC, exp_date_int DESC`: row `a` ranks at or
before row `b`. -/
def lexLaterTxn (a b : Txn) : Bool :=
  decide (b.transaction_date < a.transaction_date ∨
    (a.transaction_date = b.transaction_date ∧
      b.membership_expire_date ≤ a.membership_expire_date))

/-- The qualifying row `lq` for user `u` and target month `target` (`yyyymm`):
the lexicographically latest non-cancel row whose expiration month is the
target and whose transaction month precedes the target. -/
def qualRowHistorical (txs : List Txn) (u target : Nat) : Option Txn :=
  ((txDistinct txs u).filter (fun t =>
    decide (t.membership_expire_date / 100 = target ∧ t.is_cancel = 0 ∧
      t.transaction_date / 100 < target))).foldl
    (fun acc t =>
      match acc with
      | none => some t
      | some b => if lexLaterTxn t b then some t else some b) none

/-- Per-user, per-target-month value of `compute_all_churn_labels`: `none`
when the user has no qualifying row for the target month; otherwise 0 iff
some renewal (in the strict sense of this query) exists. -/
def compute_all_churn_labels (txs : List Txn) (u target : Nat) : Option Nat :=
  match qualRowHistorical txs u target with
  | none => none
  | some lq =>
    some (if ((txDistinct txs u).filter (fun t =>
        decide (t.is_cancel = 0 ∧ lq.transaction_date < t.transaction_date ∧
          (txDT t : Int) - (expDT lq : Int) < 30 ∧ expDT lq < expDT t))).isEmpty
      then 1 else 0)

/-! ### Label tables

The final SELECT of `create_churn_labels` emits one row per user of
`user_last_expire`, restricted to users present in the official label file;
`labels_for_expire_month` emits one row per user of `last_exp`.  Users whose
per-user value is `none` contribute no row. -/

/-- The distinct user ids appearing in a transaction list. -/
def msnoUniverse (txs : List Txn) : List Nat := (txs.map Txn.msno).dedup

/-- The output table of `create_churn_labels`: `(msno, is_churn)` rows for
train-set users (those in `official`) having a qualifying expiration. -/
def labelsTable (txs : List Txn) (official : List Nat) (cutoffD : Nat)
    (windowDays : Int) : List (Nat × Nat) :=
  ((msnoUniverse txs).filter (fun u => official.contains u)).filterMap
    (fun u => (create_churn_labels txs u cutoffD windowDays).map (fun c => (u, c)))

/-- The output table of `labels_for_expire_month`: `(msno, is_churn)` rows
for users with an expiration in the target month. -/
def backtestLabelTable (txs : List Txn) (y m : Nat) (windowDays : Int) :
    List (Nat × Nat) :=
  (msnoUniverse txs).filterMap
    (fun u => (labels_for_expire_month txs u y m windowDays).map (fun c => (u, c)))

/-! ### `src/psi.py` — `psi_numeric`

`psi_numeric(a, e, bins=10)` computes `edges = np.quantile(e, linspace(0,1,11))`,
histograms both arrays over those edges, normalizes each by `max(1, len(...))`,
clips both to `1e-6` from below, and returns `sum((a-e)*log(a/e))`.  Sample
values are embedded as rationals (numpy's quantile interpolation and the
histogram bin rule are exact rational operations); only the final logarithm
lives in `ℝ`. -/

/-- `np.quantile(e, q)` with linear interpolation on the sorted sample. -/
def quantileQ (e : List ℚ) (q : ℚ) : ℚ :=
  let s := e.insertionSort (· ≤ ·)
  let n := s.length
  if n = 0 then 0
  else
    let h : ℚ := ((n : ℚ) - 1) * q
    let i : ℕ := (⌊h⌋).toNat
    let g : ℚ := h - (i : ℚ)
    if i + 1 < n then s.getD i 0 + g * (s.getD (i + 1) 0 - s.getD i 0)
    else s.getD i 0

/-- The 11 decile edges `np.quantile(e, np.linspace(0, 1, 11))`. -/
def psiEdges (e : List ℚ) : List ℚ :=
  (List.range 11).map (fun k => quantileQ e ((k : ℚ) / 10))

/-- `np.histogram(data, bins=edges)[0]`: counts per bin, half-open bins
except the last, which is closed. -/
def histCounts (edges : List ℚ) (data : List ℚ) : List ℕ :=
  (List.range (edges.length - 1)).map (fun i =>
    if i + 1 = edges.length - 1 then
      (data.filter (fun x =>
        decide (edges.getD i 0 ≤ x ∧ x ≤ edges.getD (i + 1) 0))).length
    else
      (data.filter (fun x =>
        decide (edges.getD i 0 ≤ x ∧ x < edges.getD (i + 1) 0))).length)

/-- Histogram counts normalized by `max(1, len(data))` and clipped to
`1e-6` from below (`np.clip(..., 1e-6, None)`). -/
def psiVec (edges : List ℚ) (data : List ℚ) : List ℚ :=
  (histCounts edges data).map (fun c =>
    max ((c : ℚ) / ((max 1 data.length : ℕ) : ℚ)) (1 / 1000000))

/-- `psi_numeric(a, e)` with the default `bins=10`:
`sum((a' - e') * log(a' / e'))` over the clipped decile-histogram vectors. -/
noncomputable def psi_numeric (a e : List ℚ) : ℝ :=
  (((psiVec (psiEdges e) a).zip (psiVec (psiEdges e) e)).map (fun p =>
    ((p.1 - p.2 : ℚ) : ℝ) * Real.log ((p.1 / p.2 : ℚ) : ℝ))).sum

/-! ### `src/labels.py` — `validate_labels` -/

/-- One row of the labels dataframe passed to `validate_labels` and
`mismatch_audit`: the generated and the official label, each possibly
missing, plus the `days_to_next` audit column. -/
structure LabelRow where
  msno : Nat
  is_churn : Option Int
  official_is_churn : Option Int
  days_to_next : Option Int
deriving DecidableEq

/-- `labels_df.dropna(subset=["is_churn", "official_is_churn"])`: the rows
where both labels are present. -/
def comparableRows (rows : List LabelRow) : List LabelRow :=
  rows.filter (fun r => r.is_churn.isSome && r.official_is_churn.isSome)

/-- The number of comparable rows whose two labels agree. -/
def matchCount (rows : List LabelRow) : ℕ :=
  ((comparableRows rows).filter
    (fun r => decide (r.is_churn = r.official_is_churn))).length

/-- `matches / total` as an exact rational (0 when there are no comparable
rows; the code never reaches the division in that case). -/
def labelAccuracy (rows : List LabelRow) : ℚ :=
  (matchCount rows : ℚ) / ((comparableRows rows).length : ℚ)

/-- `validate_labels`: errors when no comparable rows exist, errors when the
accuracy is below the threshold, and otherwise returns
`(accuracy, matches, total)`. -/
def validate_labels (rows : List LabelRow) (minAccuracy : ℚ) :
    Except String (ℚ × ℕ × ℕ) :=
  if (comparableRows rows).length = 0 then
    Except.error "No comparable labels found for validation"
  else if labelAccuracy rows < minAccuracy then
    Except.error "Label accuracy below required minimum"
  else
    Except.ok (labelAccuracy rows, matchCount rows, (comparableRows rows).length)

/-! ### `src/labels.py` — `mismatch_audit`

The audit keeps the comparable rows whose two labels disagree, tags each with
`false_negative` when `generated_label < official_label` and `false_positive`
otherwise, and sorts by `["mismatch_type", "days_to_next"]`, both ascending
(`"false_negative" < "false_positive"` in the lexicographic string order
pandas uses, and pandas places missing `days_to_next` last).  pandas'
default quicksort leaves the relative order of rows with equal keys
unspecified, so the embedding fixes an insertion sort on the same key and
the theorems state only key-sortedness and permutation, which hold for any
sorting algorithm. -/

/-- The two mismatch tags. -/
inductive MismatchType where
  | fn
  | fp
deriving DecidableEq

/-- Sort rank of the tag: `"false_negative" < "false_positive"`. -/
def typeRank : MismatchType → Nat
  | MismatchType.fn => 0
  | MismatchType.fp => 1

/-- Missing `days_to_next` sorts after present values (pandas puts NaN last). -/
def daysNullRank (d : Option Int) : Nat :=
  match d with
  | none => 1
  | some _ => 0

/-- The `days_to_next` value used for comparison (only meaningful when
present; `daysNullRank` already separates the missing values). -/
def daysVal (d : Option Int) : Int := d.getD 0

/-- The comparable rows whose generated and official labels disagree. -/
def auditMismatches (rows : List LabelRow) : List LabelRow :=
  (comparableRows rows).filter (fun r => decide (r.is_churn ≠ r.official_is_churn))

/-- The tag of a mismatch row: `false_negative` when the generated label is
below the official one, `false_positive` otherwise.  (All audited rows are
comparable, so both labels are present.) -/
def mismatchType (r : LabelRow) : MismatchType :=
  match r.is_churn, r.official_is_churn with
  | some g, some o => if g < o then MismatchType.fn else MismatchType.fp
  | _, _ => MismatchType.fp

/-- The sort key order of `sort_values(["mismatch_type", "days_to_next"],
ascending=[True, True])`: tag rank first, then missing-last, then the value. -/
def auditLE (a b : LabelRow × MismatchType) : Prop :=
  typeRank a.2 < typeRank b.2 ∨
    (typeRank a.2 = typeRank b.2 ∧
      (daysNullRank a.1.days_to_next < daysNullRank b.1.days_to_next ∨
        (daysNullRank a.1.days_to_next = daysNullRank b.1.days_to_next ∧
          daysVal a.1.days_to_next ≤ daysVal b.1.days_to_next)))

instance : DecidableRel auditLE := fun a b => by
  unfold auditLE
  infer_instance

instance : IsTotal (LabelRow × MismatchType) auditLE :=
  ⟨by
    intro a b
    unfold auditLE
    omega⟩

instance : IsTrans (LabelRow × MismatchType) auditLE :=
  ⟨by
    intro a b c
    unfold auditLE
    omega⟩

/-- `mismatch_audit`: the tagged disagreements, sorted by
`(mismatch_type, days_to_next)` ascending. -/
def mismatch_audit (rows : List LabelRow) : List (LabelRow × MismatchType) :=
  List.insertionSort auditLE
    ((auditMismatches rows).map (fun r => (r, mismatchType r)))

/-! ### `src/temporal_cv.py` — `TemporalSplit` -/

/-- The configuration of `TemporalSplit`: timestamps are embedded as
integers (days), `val_end = none` models the Python `None`. -/
structure TemporalSplit where
  train_end : Int
  val_end : Option Int
  gap_days : Int

/-- `TemporalSplit.split`: index sets (`np.where` over boolean masks) of the
rows whose timestamp is strictly before `train_end` (train) and of the rows
whose timestamp is at least `train_end + gap_days` and, when `val_end` is
given, strictly before it (validation). -/
def TemporalSplit.split (s : TemporalSplit) (times : List Int) :
    List Nat × List Nat :=
  let trainIdx := (List.range times.length).filter
    (fun i => decide (times.getD i 0 < s.train_end))
  let valIdx := (List.range times.length).filter (fun i =>
    match s.val_end with
    | some ve => decide (s.train_end + s.gap_days ≤ times.getD i 0 ∧
        times.getD i 0 < ve)
    | none => decide (s.train_end + s.gap_days ≤ times.getD i 0))
  (trainIdx, valIdx)

/-! ### `src/backtest.py` — the window loop of `main`

`main` iterates over the windows; every iteration reads the features SQL file
and queries the transactions, user-logs, members and train-placeholder CSVs
(`build_features`), then the transactions CSV again
(`labels_for_expire_month`), and writes that window's artifacts.  There is no
exception handling around the loop: a missing input file raises
(`FileNotFoundError` from `Path.read_text`, a DuckDB IO error from
`read_csv_auto`, and `create_churn_labels` in `labels.py` likewise raises
`FileNotFoundError`), which aborts the whole run.  All five input paths are
shared by every window.  The embedding models the file system as the list of
available paths and a window by its tag. -/

/-- The five input paths of a backtest run. -/
structure BacktestPaths where
  features_sql : String
  transactions : String
  user_logs : String
  members : String
  train_placeholder : String
deriving DecidableEq

/-- The files every window of the loop reads. -/
def requiredFiles (p : BacktestPaths) : List String :=
  [p.features_sql, p.train_placeholder, p.transactions, p.user_logs, p.members]

/-- One iteration of the window loop: produces the window's feature artifact
when every input file exists and raises otherwise. -/
def processWindow (avail : List String) (p : BacktestPaths) (w : String) :
    Except String String :=
  if (requiredFiles p).all (fun f => avail.contains f) then
    Except.ok ("eval/features_" ++ w ++ ".csv")
  else
    Except.error ("missing input: window " ++ w)

/-- The window loop of `main`: windows are processed in order and the first
raised exception aborts the run (no window is skipped-and-continued). -/
def runBacktestWindows (avail : List String) (p : BacktestPaths) :
    List String → Except String (List String)
  | [] => Except.ok []
  | w :: ws =>
    match processWindow avail p w with
    | Except.error e => Except.error e
    | Except.ok a =>
      match runBacktestWindows avail p ws with
      | Except.error e => Except.error e
      | Except.ok rest => Except.ok (a :: rest)

/-! ## Claims -/

/-- C1: for every user with a qualifying expiration, both `create_churn_labels`
and `labels_for_expire_month` follow the 30-day rule case analysis: if no
subsequent non-cancel membership-extending transaction exists, `is_churn = 1`;
if the earliest such transaction has `days_to_renewal ≤ windowDays`
(boundary inclusive; default `windowDays = 30`), `is_churn = 0`; if
`days_to_renewal > windowDays`, `is_churn = 1`. -/
theorem c1_thirty_day_rule (txs : List Txn) (u cutoffD y m le : Nat) (w : Int) :
    (lastExpireLabels txs u cutoffD = some le →
      (nextTxnLabels txs u cutoffD le = none →
        create_churn_labels txs u cutoffD w = some 1) ∧
      (∀ nx, nextTxnLabels txs u cutoffD le = some nx →
        ((nx : Int) - (le : Int) ≤ w →
          create_churn_labels txs u cutoffD w = some 0) ∧
        (w < (nx : Int) - (le : Int) →
          create_churn_labels txs u cutoffD w = some 1))) ∧
    (lastExpBacktest txs u y m = some le →
      (nextTxnBacktest txs u le = none →
        labels_for_expire_month txs u y m w = some 1) ∧
      (∀ nx, nextTxnBacktest txs u le = some nx →
        ((nx : Int) - (le : Int) ≤ w →
          labels_for_expire_month txs u y m w = some 0) ∧
        (w < (nx : Int) - (le : Int) →
          labels_for_expire_month txs u y m w = some 1))) := by
  constructor
  · intro h
    constructor
    · intro hn
      simp [create_churn_labels, h, hn, churnCase]
    · intro nx hnx
      constructor
      · intro hin
        simp [create_churn_labels, h, hnx, churnCase, hin]
      · intro hout
        simp only [create_churn_labels, h, hnx, churnCase]
        rw [if_neg (by omega)]
  · intro h
    constructor
    · intro hn
      simp [labels_for_expire_month, h, hn, churnCase]
    · intro nx hnx
      constructor
      · intro hin
        simp [labels_for_expire_month, h, hnx, churnCase, hin]
      · intro hout
        simp only [labels_for_expire_month, h, hnx, churnCase]
        rw [if_neg (by omega)]

/-- C1 witness: a user expiring 2017-02-15 with a non-cancel renewal dated
2017-02-20 (5 days) is labeled 0 by `create_churn_labels`. -/
theorem c1_thirty_day_rule_witness :
    lastExpireLabels [⟨1, 20170101, 20170215, 0⟩, ⟨1, 20170220, 20170320, 0⟩] 1
        (dayNumOfYMD 2017 3 1) = some (dayNum 20170215) ∧
    nextTxnLabels [⟨1, 20170101, 20170215, 0⟩, ⟨1, 20170220, 20170320, 0⟩] 1
        (dayNumOfYMD 2017 3 1) (dayNum 20170215) = some (dayNum 20170220) ∧
    create_churn_labels [⟨1, 20170101, 20170215, 0⟩, ⟨1, 20170220, 20170320, 0⟩]
        1 (dayNumOfYMD 2017 3 1) 30 = some 0 :=
  ⟨by decide, by decide,
    (((c1_thirty_day_rule
        [⟨1, 20170101, 20170215, 0⟩, ⟨1, 20170220, 20170320, 0⟩] 1
        (dayNumOfYMD 2017 3 1) 2017 2 (dayNum 20170215) 30).1
      (by decide)).2 (dayNum 20170220) (by decide)).1 (by decide)⟩

/-- C2 counterexample: the three labelers do not agree.  History: user 1 has a
non-cancel transaction dated 2017-01-10 expiring 2017-02-05 and a non-cancel
transaction dated 2017-03-07 (exactly 30 days after the expiration) expiring
2017-04-05.  For target expiry month 2017-02 (labels.py cutoff 2017-03-01,
the first day after that month), `labels_for_expire_month` returns 0 (the
day-30 renewal is inside the inclusive window), while `create_churn_labels`
returns 1 (the renewal transaction is dated after its cutoff, so it is
invisible) and `compute_all_churn_labels` returns 1 (its boundary is the
strict `< 30`). -/
theorem c2_counterexample :
    create_churn_labels [⟨1, 20170110, 20170205, 0⟩, ⟨1, 20170307, 20170405, 0⟩]
        1 (dayNumOfYMD 2017 3 1) 30 = some 1 ∧
    labels_for_expire_month
        [⟨1, 20170110, 20170205, 0⟩, ⟨1, 20170307, 20170405, 0⟩] 1 2017 2 30
        = some 0 ∧
    compute_all_churn_labels
        [⟨1, 20170110, 20170205, 0⟩, ⟨1, 20170307, 20170405, 0⟩] 1 201702
        = some 1 ∧
    create_churn_labels [⟨1, 20170110, 20170205, 0⟩, ⟨1, 20170307, 20170405, 0⟩]
        1 (dayNumOfYMD 2017 3 1) 30 ≠
      labels_for_expire_month
        [⟨1, 20170110, 20170205, 0⟩, ⟨1, 20170307, 20170405, 0⟩] 1 2017 2 30 := by
  refine ⟨by decide, by decide, by decide, by decide⟩

/-- C2 amended: `create_churn_labels` and `labels_for_expire_month` assign the
same label to a user whenever every transaction of the user is dated strictly
before the labels.py cutoff and both select the same qualifying expiration;
`compute_all_churn_labels` is not equivalent to them (strict 30-day boundary,
renewal window anchored at the qualifying transaction). -/
theorem c2_amended_labels_eq_backtest (txs : List Txn) (u cutoffD y m : Nat)
    (w : Int)
    (hall : ∀ t ∈ userTx txs u, txDT t ≤ cutoffD - 1)
    (hle : lastExpireLabels txs u cutoffD = lastExpBacktest txs u y m) :
    create_churn_labels txs u cutoffD w = labels_for_expire_month txs u y m w := by
  have hfix : txBeforeCutoff txs u cutoffD = userTx txs u := by
    unfold txBeforeCutoff
    exact List.filter_eq_self.mpr (fun t ht => decide_eq_true (hall t ht))
  unfold create_churn_labels labels_for_expire_month
  rw [hle]
  cases hb : lastExpBacktest txs u y m with
  | none => rfl
  | some le =>
    have hnext : nextTxnLabels txs u cutoffD le = nextTxnBacktest txs u le := by
      unfold nextTxnLabels nextTxnBacktest
      rw [hfix]
    show some (churnCase le (nextTxnLabels txs u cutoffD le) w) =
      some (churnCase le (nextTxnBacktest txs u le) w)
    rw [hnext]

/-- C2 amended witness: with the renewal dated 2017-02-20 (before the cutoff)
both labelers agree. -/
theorem c2_amended_labels_eq_backtest_witness :
    (∀ t ∈ userTx [⟨1, 20170110, 20170205, 0⟩, ⟨1, 20170220, 20170320, 0⟩] 1,
      txDT t ≤ dayNumOfYMD 2017 3 1 - 1) ∧
    lastExpireLabels [⟨1, 20170110, 20170205, 0⟩, ⟨1, 20170220, 20170320, 0⟩] 1
        (dayNumOfYMD 2017 3 1) =
      lastExpBacktest [⟨1, 20170110, 20170205, 0⟩, ⟨1, 20170220, 20170320, 0⟩]
        1 2017 2 ∧
    create_churn_labels [⟨1, 20170110, 20170205, 0⟩, ⟨1, 20170220, 20170320, 0⟩]
        1 (dayNumOfYMD 2017 3 1) 30 =
      labels_for_expire_month
        [⟨1, 20170110, 20170205, 0⟩, ⟨1, 20170220, 20170320, 0⟩] 1 2017 2 30 :=
  ⟨by decide, by decide,
    c2_amended_labels_eq_backtest
      [⟨1, 20170110, 20170205, 0⟩, ⟨1, 20170220, 20170320, 0⟩] 1
      (dayNumOfYMD 2017 3 1) 2017 2 30 (by decide) (by decide)⟩

/-- C3 (code behaviour at the claimed input): for the history of
`test_edge_case_same_day_renewal` — expiration 2017-02-15 and a non-cancel
membership-extending transaction dated the same calendar day 2017-02-15 —
both labelers return `is_churn = 1`: the SQL requires the renewal transaction
to be dated strictly after the expiration
(`t2.transaction_date > last_expire_date`), so a same-day renewal never
counts and `days_to_renewal = 0` is unreachable.  The repository's own test
asserts `is_churn = 0` at exactly this input. -/
theorem c3_same_day_renewal_evaluates_to_churn :
    create_churn_labels [⟨1, 20170101, 20170215, 0⟩, ⟨1, 20170215, 20170320, 0⟩]
        1 (dayNumOfYMD 2017 3 1) 30 = some 1 ∧
    labels_for_expire_month
        [⟨1, 20170101, 20170215, 0⟩, ⟨1, 20170215, 20170320, 0⟩] 1 2017 2 30
        = some 1 := by
  refine ⟨by decide, by decide⟩

/-- C8: cancellation transactions never count as a renewal.  If every
transaction of the user dated after the qualifying expiration has
`is_cancel = 1` — even if dated within the window — both labelers return
`is_churn = 1`. -/
theorem c8_cancel_only_follow_up_is_churn (txs : List Txn)
    (u cutoffD y m : Nat) (w : Int) :
    (∀ le, lastExpireLabels txs u cutoffD = some le →
      (∀ t ∈ userTx txs u, le < txDT t → t.is_cancel = 1) →
      create_churn_labels txs u cutoffD w = some 1) ∧
    (∀ le, lastExpBacktest txs u y m = some le →
      (∀ t ∈ userTx txs u, le < txDT t → t.is_cancel = 1) →
      labels_for_expire_month txs u y m w = some 1) := by
  constructor
  · intro le h hc
    have hmt : (txBeforeCutoff txs u cutoffD).filter (fun t =>
        decide (le < txDT t ∧ t.is_cancel = 0 ∧ le < expDT t)) = [] := by
      apply List.filter_eq_nil_iff.mpr
      intro t ht
      have htu : t ∈ userTx txs u := by
        unfold txBeforeCutoff at ht
        exact (List.mem_filter.mp ht).1
      simp only [decide_eq_true_eq, not_and]
      intro h1 h2
      have := hc t htu h1
      omega
    have hnone : nextTxnLabels txs u cutoffD le = none := by
      unfold nextTxnLabels
      rw [hmt]
      rfl
    simp [create_churn_labels, h, hnone, churnCase]
  · intro le h hc
    have hmt : (userTx txs u).filter (fun t =>
        decide (le < txDT t ∧ t.is_cancel = 0 ∧ le < expDT t)) = [] := by
      apply List.filter_eq_nil_iff.mpr
      intro t ht
      simp only [decide_eq_true_eq, not_and]
      intro h1 h2
      have := hc t ht h1
      omega
    have hnone : nextTxnBacktest txs u le = none := by
      unfold nextTxnBacktest
      rw [hmt]
      rfl
    simp [labels_for_expire_month, h, hnone, churnCase]

/-- C8 witness: a user expiring 2017-02-15 whose only later transaction is a
cancellation dated 2017-02-20 (within the window) is labeled churn by both
labelers. -/
theorem c8_cancel_only_follow_up_is_churn_witness :
    lastExpireLabels [⟨1, 20170101, 20170215, 0⟩, ⟨1, 20170220, 20170320, 1⟩] 1
        (dayNumOfYMD 2017 3 1) = some (dayNum 20170215) ∧
    lastExpBacktest [⟨1, 20170101, 20170215, 0⟩, ⟨1, 20170220, 20170320, 1⟩] 1
        2017 2 = some (dayNum 20170215) ∧
    create_churn_labels [⟨1, 20170101, 20170215, 0⟩, ⟨1, 20170220, 20170320, 1⟩]
        1 (dayNumOfYMD 2017 3 1) 30 = some 1 ∧
    labels_for_expire_month
        [⟨1, 20170101, 20170215, 0⟩, ⟨1, 20170220, 20170320, 1⟩] 1 2017 2 30
        = some 1 :=
  ⟨by decide, by decide,
    (c8_cancel_only_follow_up_is_churn
        [⟨1, 20170101, 20170215, 0⟩, ⟨1, 20170220, 20170320, 1⟩] 1
        (dayNumOfYMD 2017 3 1) 2017 2 30).1 (dayNum 20170215)
      (by decide) (by decide),
    (c8_cancel_only_follow_up_is_churn
        [⟨1, 20170101, 20170215, 0⟩, ⟨1, 20170220, 20170320, 1⟩] 1
        (dayNumOfYMD 2017 3 1) 2017 2 30).2 (dayNum 20170215)
      (by decide) (by decide)⟩

/-- C9: a user with no qualifying expiration produces no label row at all —
for `create_churn_labels`, no transaction before the cutoff whose expiration
is before the cutoff; for `labels_for_expire_month`, no transaction whose
expiration falls in the target month.  The user is excluded from the output
table, not defaulted to any label. -/
theorem c9_no_qualifying_expiration_no_row (txs : List Txn)
    (official : List Nat) (u cutoffD y m : Nat) (w : Int) :
    ((∀ t ∈ userTx txs u, ¬(txDT t ≤ cutoffD - 1 ∧ expDT t < cutoffD)) →
      ∀ c, (u, c) ∉ labelsTable txs official cutoffD w) ∧
    ((∀ t ∈ userTx txs u,
        ¬(monthFirstDay y m ≤ expDT t ∧ expDT t ≤ monthLastDay y m)) →
      ∀ c, (u, c) ∉ backtestLabelTable txs y m w) := by
  constructor
  · intro h c hmem
    obtain ⟨a, _, hfa⟩ := List.mem_filterMap.mp hmem
    cases hca : create_churn_labels txs a cutoffD w with
    | none =>
      rw [hca] at hfa
      exact Option.noConfusion hfa
    | some cl =>
      rw [hca] at hfa
      have hau : a = u := congrArg Prod.fst (Option.some.inj hfa)
      subst hau
      have hempty : (txBeforeCutoff txs a cutoffD).filter
          (fun t => decide (expDT t < cutoffD)) = [] := by
        apply List.filter_eq_nil_iff.mpr
        intro t ht
        have hm := List.mem_filter.mp (by
          unfold txBeforeCutoff at ht
          exact ht)
        simp only [decide_eq_true_eq] at hm ⊢
        exact fun hexp => h t hm.1 ⟨hm.2, hexp⟩
      have hnone : lastExpireLabels txs a cutoffD = none := by
        unfold lastExpireLabels
        rw [hempty]
        rfl
      rw [create_churn_labels, hnone] at hca
      exact Option.noConfusion hca
  · intro h c hmem
    obtain ⟨a, _, hfa⟩ := List.mem_filterMap.mp hmem
    cases hca : labels_for_expire_month txs a y m w with
    | none =>
      rw [hca] at hfa
      exact Option.noConfusion hfa
    | some cl =>
      rw [hca] at hfa
      have hau : a = u := congrArg Prod.fst (Option.some.inj hfa)
      subst hau
      have hempty : (userTx txs a).filter (fun t =>
          decide (monthFirstDay y m ≤ expDT t ∧ expDT t ≤ monthLastDay y m))
          = [] := by
        apply List.filter_eq_nil_iff.mpr
        intro t ht
        simp only [decide_eq_true_eq]
        exact h t ht
      have hnone : lastExpBacktest txs a y m = none := by
        unfold lastExpBacktest
        rw [hempty]
        rfl
      rw [labels_for_expire_month, hnone] at hca
      exact Option.noConfusion hca

/-- C9 witness: user 2's only transaction is dated after the cutoff with an
expiration in March, so user 2 gets no row from either labeler (while user 1
does get a row). -/
theorem c9_no_qualifying_expiration_no_row_witness :
    (∀ t ∈ userTx [⟨1, 20170101, 20170215, 0⟩, ⟨2, 20170305, 20170405, 0⟩] 2,
      ¬(txDT t ≤ dayNumOfYMD 2017 3 1 - 1 ∧ expDT t < dayNumOfYMD 2017 3 1)) ∧
    (2, 1) ∉ labelsTable [⟨1, 20170101, 20170215, 0⟩, ⟨2, 20170305, 20170405, 0⟩]
        [1, 2] (dayNumOfYMD 2017 3 1) 30 ∧
    (∀ t ∈ userTx [⟨1, 20170101, 20170215, 0⟩, ⟨2, 20170305, 20170405, 0⟩] 2,
      ¬(monthFirstDay 2017 2 ≤ expDT t ∧ expDT t ≤ monthLastDay 2017 2)) ∧
    (2, 1) ∉ backtestLabelTable
        [⟨1, 20170101, 20170215, 0⟩, ⟨2, 20170305, 20170405, 0⟩] 2017 2 30 :=
  ⟨by decide,
    (c9_no_qualifying_expiration_no_row
        [⟨1, 20170101, 20170215, 0⟩, ⟨2, 20170305, 20170405, 0⟩] [1, 2] 2
        (dayNumOfYMD 2017 3 1) 2017 2 30).1 (by decide) 1,
    by decide,
    (c9_no_qualifying_expiration_no_row
        [⟨1, 20170101, 20170215, 0⟩, ⟨2, 20170305, 20170405, 0⟩] [1, 2] 2
        (dayNumOfYMD 2017 3 1) 2017 2 30).2 (by decide) 1⟩

/-- C10: `TemporalSplit.split` returns temporally separated index sets —
every training index points at a timestamp strictly before `train_end`,
every validation index at a timestamp at least `train_end + gap_days`
(and strictly before `val_end` when one is given), so with `gap_days ≥ 0`
no index belongs to both sets. -/
theorem c10_temporal_split_disjoint (s : TemporalSplit) (times : List Int)
    (hg : 0 ≤ s.gap_days) :
    (∀ i ∈ (s.split times).1, i < times.length ∧
      times.getD i 0 < s.train_end) ∧
    (∀ i ∈ (s.split times).2, i < times.length ∧
      s.train_end + s.gap_days ≤ times.getD i 0 ∧
      ∀ ve, s.val_end = some ve → times.getD i 0 < ve) ∧
    (∀ i, i ∈ (s.split times).1 → i ∉ (s.split times).2) := by
  have htrain : ∀ i ∈ (s.split times).1, i < times.length ∧
      times.getD i 0 < s.train_end := by
    intro i hi
    unfold TemporalSplit.split at hi
    have := List.mem_filter.mp hi
    exact ⟨List.mem_range.mp this.1, of_decide_eq_true this.2⟩
  have hval : ∀ i ∈ (s.split times).2, i < times.length ∧
      s.train_end + s.gap_days ≤ times.getD i 0 ∧
      ∀ ve, s.val_end = some ve → times.getD i 0 < ve := by
    intro i hi
    unfold TemporalSplit.split at hi
    have hm := List.mem_filter.mp hi
    refine ⟨List.mem_range.mp hm.1, ?_⟩
    cases hv : s.val_end with
    | none =>
      rw [hv] at hm
      exact ⟨of_decide_eq_true hm.2, fun ve hve => Option.noConfusion hve⟩
    | some ve =>
      rw [hv] at hm
      have hc := of_decide_eq_true hm.2
      exact ⟨hc.1, fun ve2 hve2 => by
        rw [Option.some.inj hve2] at hc
        exact hc.2⟩
  refine ⟨htrain, hval, ?_⟩
  intro i hi hj
  have h1 := (htrain i hi).2
  have h2 := (hval i hj).2.1
  omega

/-- C10 witness: for timestamps `[0, 5, 10]`, `train_end = 4`,
`val_end = 20`, `gap_days = 2`, index 0 is a training index and is not a
validation index. -/
theorem c10_temporal_split_disjoint_witness :
    0 ≤ (2 : Int) ∧
    0 ∈ ((⟨4, some 20, 2⟩ : TemporalSplit).split [0, 5, 10]).1 ∧
    0 ∉ ((⟨4, some 20, 2⟩ : TemporalSplit).split [0, 5, 10]).2 :=
  ⟨by decide, by decide,
    (c10_temporal_split_disjoint ⟨4, some 20, 2⟩ [0, 5, 10] (by decide)).2.2 0
      (by decide)⟩

/-- C7 counterexample: with the transactions CSV absent and two windows
configured, the backtest run aborts with an error raised by the first window
and produces no artifacts at all — the second window does not complete,
contradicting skip-with-warning semantics. -/
theorem c7_counterexample :
    runBacktestWindows ["features.sql", "logs.csv", "members.csv", "train.csv"]
        ⟨"features.sql", "tx.csv", "logs.csv", "members.csv", "train.csv"⟩
        ["2017-02-2017-03", "2017-03-2017-04"]
      = Except.error "missing input: window 2017-02-2017-03" ∧
    (runBacktestWindows ["features.sql", "logs.csv", "members.csv", "train.csv"]
        ⟨"features.sql", "tx.csv", "logs.csv", "members.csv", "train.csv"⟩
        ["2017-02-2017-03", "2017-03-2017-04"]).toOption = none := by
  refine ⟨rfl, rfl⟩

/-- C7 amended: the window loop of `backtest.py`'s `main` has no
skip-with-warning handling.  All five input paths are shared by every
window; when they all exist the run produces every window's artifact, and
when any is missing the run aborts with an error at the first window, so no
window completes. -/
theorem c7_amended_missing_file_aborts_run (avail : List String)
    (p : BacktestPaths) (ws : List String) :
    ((requiredFiles p).all (fun f => avail.contains f) = true →
      runBacktestWindows avail p ws =
        Except.ok (ws.map (fun w => "eval/features_" ++ w ++ ".csv"))) ∧
    ((requiredFiles p).all (fun f => avail.contains f) = false →
      ws ≠ [] → runBacktestWindows avail p ws =
        Except.error ("missing input: window " ++ ws.headD "")) := by
  constructor
  · intro hall
    induction ws with
    | nil => rfl
    | cons w ws ih =>
      unfold runBacktestWindows processWindow
      rw [if_pos hall, ih]
      rfl
  · intro hfail
    cases ws with
    | nil => exact fun h => absurd rfl h
    | cons w ws =>
      intro _
      unfold runBacktestWindows processWindow
      rw [if_neg (by rw [hfail]; exact Bool.false_ne_true)]
      rfl

/-- C7 amended witness: with all inputs present one window succeeds; with the
transactions CSV absent the run errors. -/
theorem c7_amended_missing_file_aborts_run_witness :
    ((requiredFiles ⟨"f.sql", "tx.csv", "lg.csv", "mb.csv", "tr.csv"⟩).all
        (fun f => ["f.sql", "tx.csv", "lg.csv", "mb.csv", "tr.csv"].contains f)
        = true) ∧
    runBacktestWindows ["f.sql", "tx.csv", "lg.csv", "mb.csv", "tr.csv"]
        ⟨"f.sql", "tx.csv", "lg.csv", "mb.csv", "tr.csv"⟩ ["w1"] =
      Except.ok (["w1"].map (fun w => "eval/features_" ++ w ++ ".csv")) ∧
    runBacktestWindows ["f.sql", "lg.csv", "mb.csv", "tr.csv"]
        ⟨"f.sql", "tx.csv", "lg.csv", "mb.csv", "tr.csv"⟩ ["w1"] =
      Except.error ("missing input: window " ++ (["w1"] : List String).headD "") :=
  ⟨by decide,
    (c7_amended_missing_file_aborts_run
        ["f.sql", "tx.csv", "lg.csv", "mb.csv", "tr.csv"]
        ⟨"f.sql", "tx.csv", "lg.csv", "mb.csv", "tr.csv"⟩ ["w1"]).1 (by decide),
    (c7_amended_missing_file_aborts_run
        ["f.sql", "lg.csv", "mb.csv", "tr.csv"]
        ⟨"f.sql", "tx.csv", "lg.csv", "mb.csv", "tr.csv"⟩ ["w1"]).2 (by decide)
      (by decide)⟩

/-- C5: `validate_labels` computes accuracy only over the rows where both the
generated and the reference label are present (`matchCount / total` over
`comparableRows`), returns `(accuracy, matches, total)`, and raises exactly
when `accuracy < minAccuracy` (for any positive threshold; the default is
0.99 — with no comparable rows the accuracy is 0 and the function raises its
no-comparable-labels error). -/
theorem c5_validate_labels_gate (rows : List LabelRow) (minAccuracy : ℚ)
    (hmin : 0 < minAccuracy) :
    (labelAccuracy rows < minAccuracy →
      ∃ msg, validate_labels rows minAccuracy = Except.error msg) ∧
    (¬labelAccuracy rows < minAccuracy →
      validate_labels rows minAccuracy =
        Except.ok (labelAccuracy rows, matchCount rows,
          (comparableRows rows).length)) := by
  constructor
  · intro hlt
    unfold validate_labels
    by_cases hz : (comparableRows rows).length = 0
    · exact ⟨_, by rw [if_pos hz]⟩
    · exact ⟨_, by rw [if_neg hz, if_pos hlt]⟩
  · intro hge
    have hz : ¬(comparableRows rows).length = 0 := by
      intro h0
      apply hge
      unfold labelAccuracy
      rw [h0]
      simpa using hmin
    unfold validate_labels
    rw [if_neg hz, if_neg hge]

/-- C5 witness: one comparable, matching row at the default threshold
0.99 passes and returns its accuracy, match count and total. -/
theorem c5_validate_labels_gate_witness :
    (0 : ℚ) < 99 / 100 ∧
    ¬labelAccuracy [⟨1, some 1, some 1, none⟩] < 99 / 100 ∧
    validate_labels [⟨1, some 1, some 1, none⟩] (99 / 100) =
      Except.ok (labelAccuracy [⟨1, some 1, some 1, none⟩],
        matchCount [⟨1, some 1, some 1, none⟩],
        (comparableRows [⟨1, some 1, some 1, none⟩]).length) :=
  ⟨by norm_num,
    by norm_num [labelAccuracy, matchCount, comparableRows, List.filter],
    (c5_validate_labels_gate [⟨1, some 1, some 1, none⟩] (99 / 100)
      (by norm_num)).2
      (by norm_num [labelAccuracy, matchCount, comparableRows, List.filter])⟩

/-- C4: the numeric PSI of a distribution against itself is exactly 0: both
histogram vectors are computed from the same sample over the same
reference-derived decile edges, so every summand is
`(v - v) * log (v / v) = 0`. -/
theorem c4_psi_self_zero (X : List ℚ) (_h2 : ∃ x ∈ X, ∃ y ∈ X, x ≠ y) :
    psi_numeric X X = 0 := by
  unfold psi_numeric
  generalize psiVec (psiEdges X) X = v
  induction v with
  | nil => simp
  | cons x xs ih =>
    rw [List.zip_cons_cons, List.map_cons, List.sum_cons, ih]
    simp

/-- C4 witness: the two-point sample `[0, 1]` has two distinct values and
PSI 0 against itself. -/
theorem c4_psi_self_zero_witness :
    (∃ x ∈ ([0, 1] : List ℚ), ∃ y ∈ ([0, 1] : List ℚ), x ≠ y) ∧
    psi_numeric [0, 1] [0, 1] = 0 :=
  ⟨⟨0, by simp, 1, by simp, by norm_num⟩,
    c4_psi_self_zero [0, 1] ⟨0, by simp, 1, by simp, by norm_num⟩⟩

/-- The ordering asserted by the specification for the mismatch audit:
false negatives strictly before false positives and, within a type, records
with smaller distance to the 30-day boundary first
(smallest |days_to_renewal - 30|). -/
def boundaryProximityLE (a b : LabelRow × MismatchType) : Bool :=
  decide (typeRank a.2 < typeRank b.2 ∨
    (typeRank a.2 = typeRank b.2 ∧
      (daysVal a.1.days_to_next - 30).natAbs ≤
        (daysVal b.1.days_to_next - 30).natAbs))

/-- Whether a list of tagged mismatch records is ordered as the specification
asserts (adjacent pairs in `boundaryProximityLE` order). -/
def boundaryProximityOrdered : List (LabelRow × MismatchType) → Bool
  | [] => true
  | [_] => true
  | a :: b :: rest => boundaryProximityLE a b && boundaryProximityOrdered (b :: rest)

/-- C6 counterexample: for two false-negative mismatches with
`days_to_next = 5` and `days_to_next = 25`, the audit (sorted by
`days_to_next` ascending) emits the day-5 record first, although
|5 - 30| = 25 > |25 - 30| = 5 — so the output is not ordered by proximity
to the 30-day boundary. -/
theorem c6_counterexample :
    boundaryProximityOrdered (mismatch_audit
      [⟨1, some 0, some 1, some 5⟩, ⟨2, some 0, some 1, some 25⟩]) = false := by
  decide

/-- C6 amended: the audit tags every disagreement `false_negative`
(generated 0, reference 1) or `false_positive` (generated 1, reference 0)
and returns the disagreeing records sorted with all false negatives before
all false positives and, within each type, by `days_to_next` ascending
(missing values last) — not by distance to the 30-day boundary. -/
theorem c6_amended_audit_sorted (rows : List LabelRow) :
    (mismatch_audit rows).Perm
      ((auditMismatches rows).map (fun r => (r, mismatchType r))) ∧
    List.Sorted auditLE (mismatch_audit rows) ∧
    ∀ p ∈ mismatch_audit rows,
      (p.1.is_churn = some 0 ∧ p.1.official_is_churn = some 1 →
        p.2 = MismatchType.fn) ∧
      (p.1.is_churn = some 1 ∧ p.1.official_is_churn = some 0 →
        p.2 = MismatchType.fp) := by
  refine ⟨List.perm_insertionSort _ _, List.sorted_insertionSort _ _, ?_⟩
  intro p hp
  have hp2 : p ∈ (auditMismatches rows).map (fun r => (r, mismatchType r)) :=
    (List.perm_insertionSort auditLE _).mem_iff.mp hp
  obtain ⟨r, _, rfl⟩ := List.mem_map.mp hp2
  constructor
  · rintro ⟨hg, ho⟩
    simp only at hg ho
    simp only [mismatchType, hg, ho]
    norm_num
  · rintro ⟨hg, ho⟩
    simp only at hg ho
    simp only [mismatchType, hg, ho]
    norm_num

/-- C6 amended witness: a false-negative and a false-positive row are tagged
as such, the false negative is listed first, and the output is sorted. -/
theorem c6_amended_audit_sorted_witness :
    ((⟨1, some 0, some 1, some 5⟩ : LabelRow), MismatchType.fn) ∈
      mismatch_audit [⟨1, some 0, some 1, some 5⟩, ⟨2, some 1, some 0, some 40⟩] ∧
    ((⟨1, some 0, some 1, some 5⟩ : LabelRow).is_churn = some 0 ∧
      (⟨1, some 0, some 1, some 5⟩ : LabelRow).official_is_churn = some 1) ∧
    ((⟨1, some 0, some 1, some 5⟩ : LabelRow), MismatchType.fn).2 =
      MismatchType.fn :=
  ⟨by decide, ⟨rfl, rfl⟩,
    ((c6_amended_audit_sorted
        [⟨1, some 0, some 1, some 5⟩, ⟨2, some 1, some 0, some 40⟩]).2.2
      (⟨1, some 0, some 1, some 5⟩, MismatchType.fn) (by decide)).1 ⟨rfl, rfl⟩⟩
